import Mathlib

/-!
Shallow embedding of the Stash personal-finance backend (TypeScript) for
checking its natural-language specification.

Conventions used throughout:
* Monetary amounts and JS `number` arithmetic are modelled over `ℚ`
  (the guard conditions of the code use only +, -, *, / and comparisons;
  float rounding is out of scope of the claims).
* Timestamps (`Date.now()`, parsed `t.date` values) are modelled as
  natural numbers of epoch milliseconds; `new Date(s) >= new Date(now - w)`
  on nonnegative timestamps coincides with `now - w ≤ t` over `Nat`
  (truncated subtraction matches the JS comparison because dates are ≥ 0).
* MongoDB collections are modelled as in-memory lists of documents passed
  explicitly; a Mongo query/sort is the corresponding filter/sort on the list.
-/

namespace Stash

/-! ## AIInsight store (services/agenticInsightService.ts)

`AIInsight.find({userId, isActive: true}).sort({createdAt: -1})` is modelled
as a filter followed by an explicit descending insertion sort on `createdAt`.
-/

structure AIInsightDoc where
  userId : String
  insightId : String
  type : String
  priority : String
  title : String
  content : String
  createdAt : Nat
  isActive : Bool
deriving DecidableEq, Repr

/-- Descending insertion: put `x` before the first element whose key is
not larger than `x`'s (models the store's `sort({createdAt: -1})`). -/
def insertDesc {α : Type} (key : α → Nat) (x : α) : List α → List α
  | [] => [x]
  | y :: ys => if key y ≤ key x then x :: y :: ys else y :: insertDesc key x ys

/-- Sort a list so keys are descending (newest-first for `createdAt`). -/
def sortDesc {α : Type} (key : α → Nat) : List α → List α
  | [] => []
  | x :: xs => insertDesc key x (sortDesc key xs)

/-- The `(type, content)` deduplication key used by
`getActiveInsightsForUser`. -/
def insightKey (i : AIInsightDoc) : String × String := (i.type, i.content)

/-- `insights.filter((insight, index, self) => index === self.findIndex(i =>
i.type === insight.type && i.content === insight.content))`: keep an element
iff it is the first occurrence of its `(type, content)` key. -/
def dedupByTypeContent : List AIInsightDoc → List (String × String) → List AIInsightDoc
  | [], _ => []
  | i :: rest, seen =>
    if insightKey i ∈ seen then dedupByTypeContent rest seen
    else i :: dedupByTypeContent rest (insightKey i :: seen)

/-- `AgenticInsightService.getActiveInsightsForUser` over an explicit store:
filter the user's active insights, order newest-first, deduplicate by
`(type, content)` keeping the first occurrence, and take `limit`
(the route-level default for `limit` is 3). -/
def getActiveInsightsForUser (db : List AIInsightDoc) (userId : String)
    (limit : Nat) : List AIInsightDoc :=
  let insights := sortDesc (fun i => i.createdAt)
    (db.filter (fun i => i.userId == userId && i.isActive))
  let uniqueInsights := dedupByTypeContent insights []
  uniqueInsights.take limit

theorem mem_insertDesc {α : Type} (key : α → Nat) (x : α) (l : List α) (a : α) :
    a ∈ insertDesc key x l ↔ a = x ∨ a ∈ l := by
  induction l with
  | nil => simp [insertDesc]
  | cons y ys ih =>
    by_cases h : key y ≤ key x
    · simp [insertDesc, h]
    · simp [insertDesc, h, ih]
      tauto

theorem pairwise_insertDesc {α : Type} (key : α → Nat) (x : α) (l : List α)
    (hl : l.Pairwise (fun a b => key b ≤ key a)) :
    (insertDesc key x l).Pairwise (fun a b => key b ≤ key a) := by
  induction l with
  | nil => simp [insertDesc]
  | cons y ys ih =>
    rcases List.pairwise_cons.mp hl with ⟨hy, hys⟩
    by_cases h : key y ≤ key x
    · simp only [insertDesc, if_pos h]
      refine List.pairwise_cons.mpr ⟨?_, hl⟩
      intro b hb
      rcases List.mem_cons.mp hb with rfl | hb
      · exact h
      · exact le_trans (hy b hb) h
    · simp only [insertDesc, if_neg h]
      refine List.pairwise_cons.mpr ⟨?_, ih hys⟩
      intro b hb
      rcases (mem_insertDesc key x ys b).mp hb with rfl | hb
      · exact le_of_not_le h
      · exact hy b hb

theorem pairwise_sortDesc {α : Type} (key : α → Nat) (l : List α) :
    (sortDesc key l).Pairwise (fun a b => key b ≤ key a) := by
  induction l with
  | nil => simp [sortDesc]
  | cons x xs ih => exact pairwise_insertDesc key x (sortDesc key xs) ih

theorem mem_sortDesc {α : Type} (key : α → Nat) (l : List α) (a : α) :
    a ∈ sortDesc key l ↔ a ∈ l := by
  induction l with
  | nil => simp [sortDesc]
  | cons x xs ih =>
    simp [sortDesc, mem_insertDesc, ih]


theorem dedup_sublist (l : List AIInsightDoc) (seen : List (String × String)) :
    (dedupByTypeContent l seen).Sublist l := by
  induction l generalizing seen with
  | nil => simp [dedupByTypeContent]
  | cons i rest ih =>
    by_cases h : insightKey i ∈ seen
    · simp only [dedupByTypeContent, if_pos h]
      exact (ih seen).cons i
    · simp only [dedupByTypeContent, if_neg h]
      exact (ih (insightKey i :: seen)).cons₂ i

theorem dedup_not_seen (l : List AIInsightDoc) (seen : List (String × String)) :
    ∀ a ∈ dedupByTypeContent l seen, insightKey a ∉ seen := by
  induction l generalizing seen with
  | nil => simp [dedupByTypeContent]
  | cons i rest ih =>
    intro a ha
    by_cases h : insightKey i ∈ seen
    · simp only [dedupByTypeContent, if_pos h] at ha
      exact ih seen a ha
    · simp only [dedupByTypeContent, if_neg h] at ha
      rcases List.mem_cons.mp ha with rfl | ha
      · exact h
      · intro hcontra
        exact ih (insightKey i :: seen) a ha (List.mem_cons_of_mem _ hcontra)

theorem dedup_pairwise_key (l : List AIInsightDoc) (seen : List (String × String)) :
    (dedupByTypeContent l seen).Pairwise (fun a b => insightKey a ≠ insightKey b) := by
  induction l generalizing seen with
  | nil => simp [dedupByTypeContent]
  | cons i rest ih =>
    by_cases h : insightKey i ∈ seen
    · simp only [dedupByTypeContent, if_pos h]
      exact ih seen
    · simp only [dedupByTypeContent, if_neg h]
      refine List.pairwise_cons.mpr ⟨?_, ih (insightKey i :: seen)⟩
      intro b hb heq
      exact dedup_not_seen rest (insightKey i :: seen) b hb (heq ▸ List.mem_cons_self _ _)

/-- C1. `getActiveInsightsForUser` returns a deduplicated list: at most
`limit` insights, drawn from the user's active insights ordered
newest-first (the returned list is a sublist of the newest-first ordering
of the user's active insights, and is itself newest-first), and no two
returned insights share both `type` and `content`. -/
theorem c1_getActiveInsights_dedup_limited (db : List AIInsightDoc)
    (userId : String) (limit : Nat) :
    (getActiveInsightsForUser db userId limit).length ≤ limit
  ∧ (getActiveInsightsForUser db userId limit).Sublist
      (sortDesc (fun i => i.createdAt)
        (db.filter (fun i => i.userId == userId && i.isActive)))
  ∧ (∀ i ∈ getActiveInsightsForUser db userId limit,
      i.userId = userId ∧ i.isActive = true ∧ i ∈ db)
  ∧ (getActiveInsightsForUser db userId limit).Pairwise
      (fun a b => b.createdAt ≤ a.createdAt)
  ∧ (getActiveInsightsForUser db userId limit).Pairwise
      (fun a b => ¬ (a.type = b.type ∧ a.content = b.content)) := by
  set sorted := sortDesc (fun i : AIInsightDoc => i.createdAt)
    (db.filter (fun i => i.userId == userId && i.isActive)) with hsorted
  have hsub : (getActiveInsightsForUser db userId limit).Sublist sorted := by
    have h1 : (dedupByTypeContent sorted []).Sublist sorted := dedup_sublist _ _
    exact ((dedupByTypeContent sorted []).take_sublist limit).trans h1
  refine ⟨?_, hsub, ?_, ?_, ?_⟩
  · exact List.length_take_le _ _
  · intro i hi
    have hmem : i ∈ sorted := hsub.mem hi
    have hfil : i ∈ db.filter (fun i => i.userId == userId && i.isActive) :=
      (mem_sortDesc _ _ i).mp hmem
    have h2 := List.mem_filter.mp hfil
    have h3 : (i.userId == userId && i.isActive) = true := h2.2
    simp only [Bool.and_eq_true, beq_iff_eq] at h3
    exact ⟨h3.1, h3.2, h2.1⟩
  · exact (pairwise_sortDesc _ _).sublist hsub
  · have hkey : (dedupByTypeContent sorted []).Pairwise
        (fun a b => insightKey a ≠ insightKey b) := dedup_pairwise_key _ _
    have htake := hkey.sublist ((dedupByTypeContent sorted []).take_sublist limit)
    refine htake.imp ?_
    intro a b hab ⟨h1, h2⟩
    exact hab (Prod.ext h1 h2)

/-- The newer of two duplicate insights (same `type` and `content`). -/
def c1DocNew : AIInsightDoc :=
  { userId := "u1", insightId := "a", type := "tip", priority := "tip",
    title := "Personalized Tip", content := "A", createdAt := 2,
    isActive := true }

def c1DocOld : AIInsightDoc :=
  { userId := "u1", insightId := "b", type := "tip", priority := "tip",
    title := "Personalized Tip", content := "A", createdAt := 1,
    isActive := true }

def c1Store : List AIInsightDoc := [c1DocNew, c1DocOld]

/-- C1, witness: the duplicate store keeps only the newer insight, and the
kept insight is the user's active one. -/
theorem c1_witness :
    (getActiveInsightsForUser c1Store "u1" 3).length ≤ 3
  ∧ c1DocNew.userId = "u1" ∧ c1DocNew.isActive = true ∧ c1DocNew ∈ c1Store :=
  ⟨(c1_getActiveInsights_dedup_limited c1Store "u1" 3).1,
   (c1_getActiveInsights_dedup_limited c1Store "u1" 3).2.2.1 c1DocNew
     (by decide)⟩

/-- Numeric rank of an insight priority: `critical` above `warning` above
`info` above `tip` (the ordering the spec's word "prioritized" refers to). -/
def prioRank (p : String) : Nat :=
  if p == "critical" then 3 else if p == "warning" then 2
  else if p == "info" then 1 else 0

/-- Two active insights of the same user, the newer one of priority `tip`,
the older one of priority `critical`. -/
def c2Store : List AIInsightDoc :=
  [{ userId := "u1", insightId := "i-tip", type := "predictive_spending",
     priority := "tip", title := "Predictive Spending Analysis",
     content := "A", createdAt := 2, isActive := true },
   { userId := "u1", insightId := "i-crit", type := "budget_overrun",
     priority := "critical", title := "Budget Limit Exceeded",
     content := "B", createdAt := 1, isActive := true }]

/-- C2, counterexample. `getActiveInsightsForUser` does not order the
returned list by priority level: on `c2Store` it returns the `tip`-priority
insight before the `critical` one, because it sorts by `createdAt` only. -/
theorem c2_counterexample_not_priority_ordered :
    ¬ (getActiveInsightsForUser c2Store "u1" 3).Pairwise
        (fun a b => prioRank b.priority ≤ prioRank a.priority) := by
  decide

/-- C2, amended. The list emitted by `getActiveInsightsForUser` is ordered
by creation time, newest first; priority is carried as a field on each
insight but does not determine the order. -/
theorem c2_amended_newest_first (db : List AIInsightDoc) (userId : String)
    (limit : Nat) :
    (getActiveInsightsForUser db userId limit).Pairwise
      (fun a b => b.createdAt ≤ a.createdAt) := by
  have hsub : (getActiveInsightsForUser db userId limit).Sublist
      (sortDesc (fun i : AIInsightDoc => i.createdAt)
        (db.filter (fun i => i.userId == userId && i.isActive))) := by
    have h1 := dedup_sublist (sortDesc (fun i : AIInsightDoc => i.createdAt)
      (db.filter (fun i => i.userId == userId && i.isActive))) []
    exact (List.take_sublist _ _).trans h1
  exact (pairwise_sortDesc _ _).sublist hsub

/-! ## Transaction data, user profile and the template registry
(services/agenticInsightService.ts) -/

structure TransactionData where
  id : String
  amount : ℚ
  category : String
  merchant : String
  /-- epoch milliseconds of `new Date(t.date)` -/
  dateMs : Nat
  paymentMethod : String
deriving DecidableEq, Repr

structure UserProfile where
  userId : String
  userType : String
  spendingPersonality : String
  salary : ℚ
deriving DecidableEq, Repr

def msPerDay : Nat := 86400000

/-- `transactions.filter(t => new Date(t.date) >= new Date(Date.now() -
days*24*60*60*1000))`. -/
def recentWithin (now : Nat) (days : Nat) (txs : List TransactionData) :
    List TransactionData :=
  txs.filter (fun t => now - days * msPerDay ≤ t.dateMs)

/-- `reduce((sum, t) => sum + t.amount, 0)`. -/
def totalSpent (txs : List TransactionData) : ℚ :=
  txs.foldl (fun s t => s + t.amount) 0

/-- `new Date(ms).getDay()` (UTC): epoch day 0 was a Thursday (= 4). -/
def dayOfWeek (t : TransactionData) : Nat := (t.dateMs / msPerDay + 4) % 7

/-- Some category occurs at least `k` times in `txs` (the
`Object.values(categoryCounts).some(count => count >= k)` checks). -/
def someCategoryCountAtLeast (k : Nat) (txs : List TransactionData) : Bool :=
  txs.any (fun t => k ≤ (txs.filter (fun u => u.category == t.category)).length)

/-- Some day of week occurs at least `k` times in `txs`. -/
def someDayOfWeekCountAtLeast (k : Nat) (txs : List TransactionData) : Bool :=
  txs.any (fun t => k ≤ (txs.filter (fun u => dayOfWeek u == dayOfWeek t)).length)

/-- ASCII `toLowerCase` (all category/merchant strings in the repo are
ASCII). -/
def asciiLowerChar (c : Char) : Char :=
  if 65 ≤ c.toNat ∧ c.toNat ≤ 90 then Char.ofNat (c.toNat + 32) else c

def asciiLower (s : String) : String := String.mk (s.toList.map asciiLowerChar)

/-- `pat` is a prefix of `s` (on character lists). -/
def charsStartWith : List Char → List Char → Bool
  | [], _ => true
  | _ :: _, [] => false
  | p :: ps, c :: cs => p == c && charsStartWith ps cs

/-- `s.includes(pat)` on character lists. -/
def charsInclude (pat : List Char) : List Char → Bool
  | [] => charsStartWith pat []
  | c :: cs => charsStartWith pat (c :: cs) || charsInclude pat cs

/-- JavaScript `s.includes(pat)`. -/
def strIncludes (s pat : String) : Bool := charsInclude pat.toList s.toList

/-- A transaction counts towards the goal-progress insight when its
category or merchant, lowercased, includes `"savings"`. -/
def isSavingsTx (t : TransactionData) : Bool :=
  strIncludes (asciiLower t.category) "savings" ||
  strIncludes (asciiLower t.merchant) "savings"

/-- An insight template: type, priority, title and the condition predicate
(`generateContent` produces display text and is not needed by the claims
about the evaluation order). -/
structure InsightTemplate where
  type : String
  priority : String
  title : String
  conditions : Nat → List TransactionData → UserProfile → Bool

/-- The ten templates registered by `initializeInsightTemplates`, in
registration order, with their condition predicates translated from the
source (`now` stands for `Date.now()`). -/
def insightTemplates : List InsightTemplate :=
  [ { type := "budget_overrun", priority := "critical",
      title := "Budget Limit Exceeded",
      conditions := fun _ _ _ => true },
    { type := "burn_risk", priority := "critical",
      title := "High Burn Risk Detected",
      conditions := fun now txs _ =>
        someCategoryCountAtLeast 3 (recentWithin now 7 txs) },
    { type := "savings_opportunity", priority := "tip",
      title := "Savings Opportunity",
      conditions := fun now txs p =>
        totalSpent (recentWithin now 3 txs) < p.salary * (1 / 10) },
    { type := "pattern", priority := "warning",
      title := "Spending Pattern Detected",
      conditions := fun now txs _ =>
        someDayOfWeekCountAtLeast 2 (recentWithin now 14 txs) },
    { type := "goal", priority := "info",
      title := "Goal Progress Update",
      conditions := fun now txs _ =>
        0 < ((recentWithin now 7 txs).filter isSavingsTx).length },
    { type := "tip", priority := "tip",
      title := "Personalized Tip",
      conditions := fun _ _ p => p.spendingPersonality == "Heavy Spender" },
    { type := "proactive_action", priority := "tip",
      title := "Proactive Financial Action",
      conditions := fun now txs p =>
        let totalNow := totalSpent (recentWithin now 5 txs)
        let monthlyProjection := totalNow / 5 * 30
        p.salary * (15 / 100) < monthlyProjection &&
          monthlyProjection < p.salary * (8 / 10) },
    { type := "smart_categorization", priority := "info",
      title := "Smart Categorization",
      conditions := fun now txs _ =>
        someCategoryCountAtLeast 4 (recentWithin now 7 txs) },
    { type := "budget_cap_warning", priority := "warning",
      title := "Budget Cap Analysis",
      conditions := fun _ _ _ => true },
    { type := "predictive_spending", priority := "tip",
      title := "Predictive Spending Analysis",
      conditions := fun _ _ _ => true } ]

/-- The data of one generated insight that the loop fixes per template
(content text, ids and dates omitted). -/
structure GeneratedInsight where
  type : String
  priority : String
  title : String
deriving DecidableEq, Repr

def templateInsight (t : InsightTemplate) : GeneratedInsight :=
  { type := t.type, priority := t.priority, title := t.title }

/-- The `for (const template of this.insightTemplates)` loop of
`generateInsightsForUser`: push one insight per template whose condition
holds, in order. -/
def runTemplates (now : Nat) (txs : List TransactionData) (p : UserProfile) :
    List InsightTemplate → List GeneratedInsight
  | [] => []
  | t :: rest =>
    if t.conditions now txs p then
      templateInsight t :: runTemplates now txs p rest
    else runTemplates now txs p rest

/-- `AgenticInsightService.generateInsightsForUser`: the template loop,
then the predictive insights, then the behavioral insights (the latter two
come from sub-services backed by other state and are passed as the lists
they produce). -/
def generateInsightsForUser (now : Nat) (txs : List TransactionData)
    (p : UserProfile) (predictive behavioral : List GeneratedInsight) :
    List GeneratedInsight :=
  runTemplates now txs p insightTemplates ++ predictive ++ behavioral

theorem runTemplates_eq_filter_map (now : Nat) (txs : List TransactionData)
    (p : UserProfile) (ts : List InsightTemplate) :
    runTemplates now txs p ts
      = (ts.filter (fun t => t.conditions now txs p)).map templateInsight := by
  induction ts with
  | nil => rfl
  | cons t rest ih =>
    by_cases h : t.conditions now txs p = true
    · simp [runTemplates, h, ih]
    · simp [runTemplates, h, ih]

/-- C3. `generateInsightsForUser` evaluates the ten registered templates in
their fixed registration order, appends exactly one insight for each
template whose condition holds (no template type repeats), in that order,
and then appends the predictive insights followed by the behavioral
insights. -/
theorem c3_generateInsights_sequential (now : Nat)
    (txs : List TransactionData) (p : UserProfile)
    (predictive behavioral : List GeneratedInsight) :
    insightTemplates.map (fun t => t.type)
      = ["budget_overrun", "burn_risk", "savings_opportunity", "pattern",
         "goal", "tip", "proactive_action", "smart_categorization",
         "budget_cap_warning", "predictive_spending"]
  ∧ generateInsightsForUser now txs p predictive behavioral
      = (insightTemplates.filter (fun t => t.conditions now txs p)).map
          templateInsight ++ predictive ++ behavioral
  ∧ ((insightTemplates.filter (fun t => t.conditions now txs p)).map
        (fun t => t.type)).Nodup := by
  refine ⟨rfl, ?_, ?_⟩
  · unfold generateInsightsForUser
    rw [runTemplates_eq_filter_map]
  · have hsub : ((insightTemplates.filter
        (fun t => t.conditions now txs p)).map (fun t => t.type)).Sublist
        (insightTemplates.map (fun t => t.type)) :=
      (List.filter_sublist _).map _
    have hnodup : (insightTemplates.map (fun t => t.type)).Nodup := by
      decide
    exact hnodup.sublist hsub

/-! ## Category normalization and budget data
(agenticInsightService.ts `normalizeCategory`, utils/budgetData.ts) -/

/-- The per-persona category mappings of `normalizeCategory`. -/
def categoryMappingFor (spendingPersonality : String) :
    Option (List (String × String)) :=
  if spendingPersonality == "Heavy Spender" then
    some [("entertainment", "Entertainment"), ("food & dining", "Dining"),
          ("food", "Dining"), ("dining", "Dining"),
          ("groceries", "Groceries"), ("shopping", "Shopping"),
          ("transport", "Transport")]
  else if spendingPersonality == "Medium Spender" then
    some [("food", "Food"), ("groceries", "Groceries"),
          ("savings", "Savings"), ("shopping", "Shopping"),
          ("transport", "Transport")]
  else if spendingPersonality == "Max Saver" then
    some [("transport", "Transport"), ("groceries", "Groceries"),
          ("travel", "Travel"), ("utilities", "Utilities"),
          ("savings", "Savings")]
  else none

/-- `AgenticInsightService.normalizeCategory`. -/
def normalizeCategory (category spendingPersonality : String) : String :=
  match categoryMappingFor spendingPersonality with
  | none => category
  | some mapping =>
    match mapping.lookup (asciiLower category) with
    | some normalized => normalized
    | none => category

structure BudgetCategory where
  category : String
  amount : ℚ
  budgetCap : ℚ
deriving DecidableEq, Repr

/-- utils/budgetData.ts `budgetData`, per persona. -/
def budgetDataFor (persona : String) : Option (List BudgetCategory) :=
  if persona == "Heavy Spender" then
    some [⟨"Entertainment", 0, 12000⟩, ⟨"Food & Dining", 0, 10000⟩,
          ⟨"Groceries", 0, 12000⟩, ⟨"Shopping", 0, 15000⟩,
          ⟨"Transport", 0, 4000⟩]
  else if persona == "Medium Spender" then
    some [⟨"Food & Dining", 0, 6000⟩, ⟨"Groceries", 0, 7000⟩,
          ⟨"Savings", 0, 20000⟩, ⟨"Shopping", 0, 12000⟩,
          ⟨"Transport", 0, 5000⟩]
  else if persona == "Max Saver" then
    some [⟨"Transport", 0, 5000⟩, ⟨"Groceries", 0, 6000⟩,
          ⟨"Travel", 0, 4000⟩, ⟨"Utilities", 0, 7000⟩,
          ⟨"Savings", 0, 25000⟩]
  else none

/-- A stored custom budget document (`models/Budget`). -/
structure BudgetDoc where
  userId : String
  category : String
  budgetCap : ℚ
deriving DecidableEq, Repr

/-- JS object assignment `m[k] = v`: overwrite in place if the key exists,
else append. -/
def setKey (m : List (String × ℚ)) (k : String) (v : ℚ) : List (String × ℚ) :=
  if m.any (fun p => p.1 == k) then
    m.map (fun p => if p.1 == k then (k, v) else p)
  else m ++ [(k, v)]

/-- `AgenticInsightService.getBudgetDataForUser`: persona default caps,
then the user's custom budget documents override (or add) per category. -/
def getBudgetDataForUser (spendingPersonality : String)
    (userBudgets : List BudgetDoc) : Option (List (String × ℚ)) :=
  match budgetDataFor spendingPersonality with
  | none => none
  | some cats =>
    some (userBudgets.foldl (fun acc b => setKey acc b.category b.budgetCap)
      (cats.map (fun c => (c.category, c.budgetCap))))

/-- Spending summed per normalized category (the `categorySpending`
reduce of the `budget_overrun` template, read back at one key). -/
def categorySpending (spendingPersonality : String)
    (txs : List TransactionData) (k : String) : ℚ :=
  totalSpent (txs.filter
    (fun t => normalizeCategory t.category spendingPersonality == k))

/-- The names of the over-budget categories collected by the
`budget_overrun` template's `generateContent` (the display formatting of
each entry is dropped; only the category names matter here). -/
def overBudgetCategories (spendingPersonality : String)
    (userBudgets : List BudgetDoc) (txs : List TransactionData) :
    List String :=
  match getBudgetDataForUser spendingPersonality userBudgets with
  | none => []
  | some caps =>
    (caps.filter (fun p => p.2 < categorySpending spendingPersonality txs p.1)).map
      (fun p => p.1)

theorem keys_setKey (m : List (String × ℚ)) (k : String) (v : ℚ) (x : String) :
    x ∈ (setKey m k v).map Prod.fst → x = k ∨ x ∈ m.map Prod.fst := by
  unfold setKey
  by_cases h : m.any (fun p => p.1 == k)
  · rw [if_pos h]
    intro hx
    rcases List.mem_map.mp hx with ⟨p, hp, hpx⟩
    rcases List.mem_map.mp hp with ⟨q, hq, hqp⟩
    by_cases hk : q.1 == k
    · left
      rw [← hpx, ← hqp, if_pos hk]
    · right
      rw [← hpx, ← hqp, if_neg hk]
      exact List.mem_map.mpr ⟨q, hq, rfl⟩
  · rw [if_neg h]
    intro hx
    rcases List.mem_map.mp hx with ⟨p, hp, hpx⟩
    rcases List.mem_append.mp hp with hp | hp
    · right
      exact hpx ▸ List.mem_map.mpr ⟨p, hp, rfl⟩
    · left
      simp at hp
      rw [← hpx, hp]

theorem keys_foldl_setKey (bs : List BudgetDoc) (m : List (String × ℚ))
    (x : String) :
    x ∈ ((bs.foldl (fun acc b => setKey acc b.category b.budgetCap) m).map
        Prod.fst) →
    x ∈ m.map Prod.fst ∨ ∃ b ∈ bs, b.category = x := by
  induction bs generalizing m with
  | nil => intro hx; exact Or.inl hx
  | cons b rest ih =>
    intro hx
    rcases ih (setKey m b.category b.budgetCap) hx with h | ⟨b', hb', hbx⟩
    · rcases keys_setKey m b.category b.budgetCap x h with rfl | h
      · exact Or.inr ⟨b, List.mem_cons_self _ _, rfl⟩
      · exact Or.inl h
    · exact Or.inr ⟨b', List.mem_cons_of_mem _ hb', hbx⟩

/-- C4. For a Heavy Spender with no custom budget named `"Dining"`:
transactions whose category lowercases to `"food & dining"`, `"food"` or
`"dining"` are normalized to the key `"Dining"`, which is not among the
Heavy Spender default budget categories (those use `"Food & Dining"`), so
`"Dining"` never appears among the over-budget categories of the
budget-overrun insight, whatever the transaction amounts are. -/
theorem c4_dining_never_over_budget (userBudgets : List BudgetDoc)
    (txs : List TransactionData)
    (h : ∀ b ∈ userBudgets, b.category ≠ "Dining") :
    (∀ t : TransactionData,
        asciiLower t.category ∈ (["food & dining", "food", "dining"] : List String) →
        normalizeCategory t.category "Heavy Spender" = "Dining")
  ∧ "Dining" ∉ ((budgetDataFor "Heavy Spender").getD []).map
      (fun c => c.category)
  ∧ "Dining" ∉ overBudgetCategories "Heavy Spender" userBudgets txs := by
  have hov : overBudgetCategories "Heavy Spender" userBudgets txs
      = ((userBudgets.foldl (fun acc b => setKey acc b.category b.budgetCap)
          ([("Entertainment", 12000), ("Food & Dining", 10000),
            ("Groceries", 12000), ("Shopping", 15000),
            ("Transport", 4000)] : List (String × ℚ))).filter
          (fun p => p.2 < categorySpending "Heavy Spender" txs p.1)).map
          Prod.fst := rfl
  refine ⟨?_, by decide, ?_⟩
  · intro t ht
    have hnorm : normalizeCategory t.category "Heavy Spender"
        = match (([("entertainment", "Entertainment"),
            ("food & dining", "Dining"), ("food", "Dining"),
            ("dining", "Dining"), ("groceries", "Groceries"),
            ("shopping", "Shopping"),
            ("transport", "Transport")] : List (String × String)).lookup
            (asciiLower t.category)) with
          | some normalized => normalized
          | none => t.category := rfl
    simp only [List.mem_cons, List.not_mem_nil, or_false] at ht
    rcases ht with ht | ht | ht
    · rw [hnorm, ht]; rfl
    · rw [hnorm, ht]; rfl
    · rw [hnorm, ht]; rfl
  · intro hmem
    rw [hov] at hmem
    rcases List.mem_map.mp hmem with ⟨p, hp, hpd⟩
    have hkey : "Dining" ∈ ((userBudgets.foldl
        (fun acc b => setKey acc b.category b.budgetCap)
        ([("Entertainment", 12000), ("Food & Dining", 10000),
          ("Groceries", 12000), ("Shopping", 15000),
          ("Transport", 4000)] : List (String × ℚ))).map Prod.fst) :=
      List.mem_map.mpr ⟨p, List.mem_of_mem_filter hp, hpd⟩
    rcases keys_foldl_setKey _ _ _ hkey with hdef | ⟨b, hb, hbx⟩
    · revert hdef; decide
    · exact h b hb hbx

/-- C4, witness: with no custom budgets and a single huge food transaction,
normalization sends it to `"Dining"` and `"Dining"` is not reported over
budget. -/
theorem c4_witness :
    (∀ b ∈ ([] : List BudgetDoc), b.category ≠ "Dining")
  ∧ normalizeCategory "Food & Dining" "Heavy Spender" = "Dining"
  ∧ "Dining" ∉ overBudgetCategories "Heavy Spender" []
      [⟨"t1", 1000000, "Food & Dining", "Luxury Restaurant", 0, "Card"⟩] := by
  have h := c4_dining_never_over_budget []
    [⟨"t1", 1000000, "Food & Dining", "Luxury Restaurant", 0, "Card"⟩]
    (by intro b hb; exact absurd hb (List.not_mem_nil _))
  exact ⟨by intro b hb; exact absurd hb (List.not_mem_nil _),
    h.1 ⟨"t1", 1000000, "Food & Dining", "Luxury Restaurant", 0, "Card"⟩
      (by decide), h.2.2⟩

/-! ## PredictiveAnalyticsService (predictiveAnalyticsService.ts) -/

structure SpendingPattern where
  dailyAverage : ℚ
  weeklyAverage : ℚ
  monthlyAverage : ℚ
  weekendSpending : ℚ
  weekdaySpending : ℚ
  categoryTrends : String → ℚ

/-- Transactions of the last 30 days. -/
def recent30 (now : Nat) (txs : List TransactionData) : List TransactionData :=
  txs.filter (fun t => now - 30 * msPerDay ≤ t.dateMs)

/-- `PredictiveAnalyticsService.analyzeSpendingPatterns`. -/
def analyzeSpendingPatterns (now : Nat) (txs : List TransactionData) :
    SpendingPattern :=
  if txs.isEmpty then
    { dailyAverage := 0, weeklyAverage := 0, monthlyAverage := 0,
      weekendSpending := 0, weekdaySpending := 0, categoryTrends := fun _ => 0 }
  else
    { dailyAverage := totalSpent (recent30 now txs) / 30
      weeklyAverage := totalSpent (recent30 now txs) / 30 * 7
      monthlyAverage := totalSpent (recent30 now txs) / 30 * 30
      weekendSpending := totalSpent ((recent30 now txs).filter
        (fun t => dayOfWeek t == 0 || dayOfWeek t == 6))
      weekdaySpending := totalSpent ((recent30 now txs).filter
        (fun t => 1 ≤ dayOfWeek t && dayOfWeek t ≤ 5))
      categoryTrends := fun k => totalSpent ((recent30 now txs).filter
        (fun t => asciiLower t.category == k)) }

/-- `transactions.slice(-10)`. -/
def lastTen (txs : List TransactionData) : List TransactionData :=
  txs.drop (txs.length - 10)

/-- `recentTransactions.slice(0, Math.floor(n / 2))`. -/
def firstHalfOf (l : List TransactionData) : List TransactionData :=
  l.take (l.length / 2)

/-- `recentTransactions.slice(Math.floor(n / 2))`. -/
def secondHalfOf (l : List TransactionData) : List TransactionData :=
  l.drop (l.length / 2)

/-- `reduce(...) / length`: average transaction amount. -/
def avgAmount (l : List TransactionData) : ℚ := totalSpent l / l.length

/-- `PredictiveAnalyticsService.predictMonthlySpending`. -/
def predictMonthlySpending (now : Nat) (txs : List TransactionData) : ℚ :=
  if (lastTen txs).length < 5 then
    (analyzeSpendingPatterns now txs).monthlyAverage
  else
    max 0 ((analyzeSpendingPatterns now txs).monthlyAverage
      + (avgAmount (secondHalfOf (lastTen txs))
         - avgAmount (firstHalfOf (lastTen txs))) * (3 / 10))

/-- C5. `predictMonthlySpending` returns the 30-day monthly average
(total of the last 30 days' transactions divided by 30, times 30) when
fewer than 5 of the last 10 transactions exist; otherwise it returns the
monthly average plus 0.3 times the difference between the average amount
of the second half and the first half of the last 10 transactions, and in
that case the result is clamped at 0, hence never negative. -/
theorem c5_predictMonthlySpending (now : Nat) (txs : List TransactionData) :
    (txs ≠ [] → (analyzeSpendingPatterns now txs).monthlyAverage
        = totalSpent (recent30 now txs) / 30 * 30)
  ∧ ((lastTen txs).length < 5 →
      predictMonthlySpending now txs
        = (analyzeSpendingPatterns now txs).monthlyAverage)
  ∧ (5 ≤ (lastTen txs).length →
      predictMonthlySpending now txs
        = max 0 ((analyzeSpendingPatterns now txs).monthlyAverage
            + (3 / 10) * (avgAmount (secondHalfOf (lastTen txs))
               - avgAmount (firstHalfOf (lastTen txs))))
      ∧ 0 ≤ predictMonthlySpending now txs) := by
  refine ⟨?_, ?_, ?_⟩
  · intro hne
    unfold analyzeSpendingPatterns
    rw [if_neg (by simpa using hne)]
  · intro h
    unfold predictMonthlySpending
    rw [if_pos h]
  · intro h
    have hcond : ¬ (lastTen txs).length < 5 := not_lt.mpr h
    constructor
    · unfold predictMonthlySpending
      rw [if_neg hcond, mul_comm]
    · unfold predictMonthlySpending
      rw [if_neg hcond]
      exact le_max_left 0 _

def c5TxsSmall : List TransactionData :=
  [⟨"s1", 100, "food", "Restaurant", 0, "Card"⟩,
   ⟨"s2", 200, "transport", "Uber", 0, "UPI"⟩]

def c5TxsBig : List TransactionData :=
  [⟨"b1", 10, "food", "Restaurant", 0, "Card"⟩,
   ⟨"b2", 20, "food", "Restaurant", 0, "Card"⟩,
   ⟨"b3", 30, "shopping", "Mall", 0, "Card"⟩,
   ⟨"b4", 40, "shopping", "Mall", 0, "Card"⟩,
   ⟨"b5", 50, "transport", "Uber", 0, "UPI"⟩]

/-- C5, witness: both branches exercised on concrete transaction lists. -/
theorem c5_witness :
    (analyzeSpendingPatterns 0 c5TxsSmall).monthlyAverage
      = totalSpent (recent30 0 c5TxsSmall) / 30 * 30
  ∧ predictMonthlySpending 0 c5TxsSmall
      = (analyzeSpendingPatterns 0 c5TxsSmall).monthlyAverage
  ∧ 0 ≤ predictMonthlySpending 0 c5TxsBig :=
  ⟨(c5_predictMonthlySpending 0 c5TxsSmall).1 (by decide),
   (c5_predictMonthlySpending 0 c5TxsSmall).2.1 (by decide),
   ((c5_predictMonthlySpending 0 c5TxsBig).2.2 (by decide)).2⟩

/-! ## UserBehaviorService (userBehaviorService.ts) -/

structure ResponsePattern where
  accepted : Nat
  ignored : Nat
  snoozed : Nat
  dismissed : Nat
  total : Nat
deriving DecidableEq, Repr

/-- A user behavior profile (the fields the claims need; `activeHours`,
`preferredInsightTypes`, `lastActiveTime` and `averageResponseTime` play no
role in `calculateSensitivityLevel` / `getAdaptiveThresholds`). -/
structure UserBehaviorProfile where
  userId : String
  responsePatterns : List (String × ResponsePattern)
  sensitivityLevel : String
deriving DecidableEq, Repr

/-- Sum of `pattern.total` over all insight types. -/
def totalResponses (p : UserBehaviorProfile) : Nat :=
  (p.responsePatterns.map (fun x => x.2.total)).sum

def totalIgnored (p : UserBehaviorProfile) : Nat :=
  (p.responsePatterns.map (fun x => x.2.ignored)).sum

def totalAccepted (p : UserBehaviorProfile) : Nat :=
  (p.responsePatterns.map (fun x => x.2.accepted)).sum

/-- `UserBehaviorService.calculateSensitivityLevel`. -/
def calculateSensitivityLevel (p : UserBehaviorProfile) : String :=
  if totalResponses p < 5 then "medium"
  else if (7 : ℚ) / 10 < (totalIgnored p : ℚ) / (totalResponses p : ℚ) then "low"
  else if (6 : ℚ) / 10 < (totalAccepted p : ℚ) / (totalResponses p : ℚ) then "high"
  else "medium"

/-- C6. `calculateSensitivityLevel` returns `"medium"` when fewer than 5
responses are recorded across all insight types; otherwise `"low"` when
the overall ignored rate exceeds 0.7, `"high"` when (the ignored rate does
not exceed 0.7 and) the overall accepted rate exceeds 0.6, and `"medium"`
in all other cases. -/
theorem c6_calculateSensitivityLevel (p : UserBehaviorProfile) :
    (totalResponses p < 5 → calculateSensitivityLevel p = "medium")
  ∧ (5 ≤ totalResponses p →
      (7 : ℚ) / 10 < (totalIgnored p : ℚ) / (totalResponses p : ℚ) →
      calculateSensitivityLevel p = "low")
  ∧ (5 ≤ totalResponses p →
      (totalIgnored p : ℚ) / (totalResponses p : ℚ) ≤ (7 : ℚ) / 10 →
      (6 : ℚ) / 10 < (totalAccepted p : ℚ) / (totalResponses p : ℚ) →
      calculateSensitivityLevel p = "high")
  ∧ (5 ≤ totalResponses p →
      (totalIgnored p : ℚ) / (totalResponses p : ℚ) ≤ (7 : ℚ) / 10 →
      (totalAccepted p : ℚ) / (totalResponses p : ℚ) ≤ (6 : ℚ) / 10 →
      calculateSensitivityLevel p = "medium") := by
  refine ⟨?_, ?_, ?_, ?_⟩
  · intro h
    unfold calculateSensitivityLevel
    rw [if_pos h]
  · intro h hig
    unfold calculateSensitivityLevel
    rw [if_neg (not_lt.mpr h), if_pos hig]
  · intro h hig hacc
    unfold calculateSensitivityLevel
    rw [if_neg (not_lt.mpr h), if_neg (not_lt.mpr hig), if_pos hacc]
  · intro h hig hacc
    unfold calculateSensitivityLevel
    rw [if_neg (not_lt.mpr h), if_neg (not_lt.mpr hig),
        if_neg (not_lt.mpr hacc)]

def c6ProfileHigh : UserBehaviorProfile :=
  { userId := "u1",
    responsePatterns :=
      [("budget_overrun", ⟨4, 1, 0, 0, 5⟩), ("burn_risk", ⟨3, 0, 1, 0, 4⟩)],
    sensitivityLevel := "medium" }

def c6ProfileNew : UserBehaviorProfile :=
  { userId := "u2", responsePatterns := [("tip", ⟨1, 0, 0, 0, 1⟩)],
    sensitivityLevel := "medium" }

/-- C6, witness: a new user stays `"medium"`, a user accepting 7 of 9
responses becomes `"high"`. -/
theorem c6_witness :
    calculateSensitivityLevel c6ProfileNew = "medium"
  ∧ calculateSensitivityLevel c6ProfileHigh = "high" :=
  ⟨(c6_calculateSensitivityLevel c6ProfileNew).1 (by decide),
   (c6_calculateSensitivityLevel c6ProfileHigh).2.2.1 (by decide)
     (by norm_num [totalIgnored, totalResponses, c6ProfileHigh,
       List.map_cons, List.map_nil, List.sum_cons, List.sum_nil])
     (by norm_num [totalAccepted, totalResponses, c6ProfileHigh,
       List.map_cons, List.map_nil, List.sum_cons, List.sum_nil])⟩

structure AdaptiveThresholds where
  budgetOverrunThreshold : ℚ
  burnRiskThreshold : ℤ
  savingsGoalThreshold : ℚ
  responseTimeThreshold : ℚ
deriving DecidableEq, Repr

/-- JavaScript `Math.round` (half-up). -/
def jsRound (q : ℚ) : ℤ := Int.floor (q + 1 / 2)

/-- `{low: 1.5, medium: 1.0, high: 0.7}[sensitivityLevel]`. -/
def sensitivityMultiplier (level : String) : ℚ :=
  if level == "low" then 3 / 2 else if level == "high" then 7 / 10 else 1

/-- `UserBehaviorService.getAdaptiveThresholds`: the `Map.get` result is
passed as an `Option` (`none` = no profile recorded for the user). -/
def getAdaptiveThresholds (profileOpt : Option UserBehaviorProfile) :
    AdaptiveThresholds :=
  match profileOpt with
  | none =>
    { budgetOverrunThreshold := 100, burnRiskThreshold := 5,
      savingsGoalThreshold := 50, responseTimeThreshold := 60 }
  | some p =>
    { budgetOverrunThreshold := 100 * sensitivityMultiplier p.sensitivityLevel
      burnRiskThreshold :=
        max 3 (jsRound (5 * sensitivityMultiplier p.sensitivityLevel))
      savingsGoalThreshold := 50 * sensitivityMultiplier p.sensitivityLevel
      responseTimeThreshold := 60 * sensitivityMultiplier p.sensitivityLevel }

/-- C7. `getAdaptiveThresholds` returns the defaults (100, 5, 50, 60) when
the user has no behavior profile; with a profile each default is scaled by
1.5 / 1.0 / 0.7 for low / medium / high sensitivity, the burn-risk
threshold rounded to the nearest integer (half-up) and floored at 3 —
concretely (150, 8, 75, 90), (100, 5, 50, 60) and (70, 4, 35, 42). -/
theorem c7_getAdaptiveThresholds :
    getAdaptiveThresholds none
      = { budgetOverrunThreshold := 100, burnRiskThreshold := 5,
          savingsGoalThreshold := 50, responseTimeThreshold := 60 }
  ∧ (∀ p : UserBehaviorProfile, getAdaptiveThresholds (some p)
      = { budgetOverrunThreshold :=
            100 * sensitivityMultiplier p.sensitivityLevel,
          burnRiskThreshold :=
            max 3 (jsRound (5 * sensitivityMultiplier p.sensitivityLevel)),
          savingsGoalThreshold :=
            50 * sensitivityMultiplier p.sensitivityLevel,
          responseTimeThreshold :=
            60 * sensitivityMultiplier p.sensitivityLevel })
  ∧ (∀ p : UserBehaviorProfile, p.sensitivityLevel = "low" →
      getAdaptiveThresholds (some p)
        = { budgetOverrunThreshold := 150, burnRiskThreshold := 8,
            savingsGoalThreshold := 75, responseTimeThreshold := 90 })
  ∧ (∀ p : UserBehaviorProfile, p.sensitivityLevel = "medium" →
      getAdaptiveThresholds (some p)
        = { budgetOverrunThreshold := 100, burnRiskThreshold := 5,
            savingsGoalThreshold := 50, responseTimeThreshold := 60 })
  ∧ (∀ p : UserBehaviorProfile, p.sensitivityLevel = "high" →
      getAdaptiveThresholds (some p)
        = { budgetOverrunThreshold := 70, burnRiskThreshold := 4,
            savingsGoalThreshold := 35, responseTimeThreshold := 42 })
  ∧ (∀ p : UserBehaviorProfile,
      3 ≤ (getAdaptiveThresholds (some p)).burnRiskThreshold) := by
  have hform : ∀ p : UserBehaviorProfile, getAdaptiveThresholds (some p)
      = { budgetOverrunThreshold :=
            100 * sensitivityMultiplier p.sensitivityLevel,
          burnRiskThreshold :=
            max 3 (jsRound (5 * sensitivityMultiplier p.sensitivityLevel)),
          savingsGoalThreshold :=
            50 * sensitivityMultiplier p.sensitivityLevel,
          responseTimeThreshold :=
            60 * sensitivityMultiplier p.sensitivityLevel } := fun p => rfl
  refine ⟨rfl, hform, ?_, ?_, ?_, ?_⟩
  · intro p hp
    rw [hform p, hp]
    have hm : sensitivityMultiplier "low" = 3 / 2 := rfl
    simp only [hm, AdaptiveThresholds.mk.injEq]
    norm_num [jsRound]
  · intro p hp
    rw [hform p, hp]
    have hm : sensitivityMultiplier "medium" = 1 := rfl
    simp only [hm, AdaptiveThresholds.mk.injEq]
    norm_num [jsRound]
  · intro p hp
    rw [hform p, hp]
    have hm : sensitivityMultiplier "high" = 7 / 10 := rfl
    simp only [hm, AdaptiveThresholds.mk.injEq]
    norm_num [jsRound]
  · intro p
    rw [hform p]
    exact le_max_left 3 _

def c7ProfileLow : UserBehaviorProfile :=
  { userId := "u3", responsePatterns := [], sensitivityLevel := "low" }

/-- C7, witness: defaults with no profile, scaled thresholds for a
low-sensitivity profile. -/
theorem c7_witness :
    getAdaptiveThresholds none
      = { budgetOverrunThreshold := 100, burnRiskThreshold := 5,
          savingsGoalThreshold := 50, responseTimeThreshold := 60 }
  ∧ getAdaptiveThresholds (some c7ProfileLow)
      = { budgetOverrunThreshold := 150, burnRiskThreshold := 8,
          savingsGoalThreshold := 75, responseTimeThreshold := 90 } :=
  ⟨c7_getAdaptiveThresholds.1,
   c7_getAdaptiveThresholds.2.2.1 c7ProfileLow rfl⟩

/-! ## GPT4Service (gpt4Service.ts)

The external OpenAI call is modelled by its outcome, passed as
`Except Unit (Option String)`: `error` = the call threw, `ok none` = the
completion had no content, `ok (some s)` = content `s`. The configured key
is a `String`; `""` is the unset default (`config.openaiApiKey =
process.env.OPENAI_API_KEY || ''`, and `!config.openaiApiKey` is true
exactly on the empty string). In the fallback texts the multi-byte glyphs
(emoji, the rupee sign) of the source are rendered as ASCII placeholders;
the branching and interpolation structure is kept exactly. -/

structure UserContext where
  name : String
  age : Nat
  spendingPersonality : String
  recentTransactions : List TransactionData
  financialGoals : List String
  monthlyIncome : Option ℚ

structure ChatContext where
  userMessage : String
  userContext : UserContext
  /-- (isUser, message) pairs -/
  chatHistory : List (Bool × String)

/-- `GPT4Service.getFallbackResponse`. -/
def getFallbackResponse (context : ChatContext) : String :=
  let name := context.userContext.name
  let spendingPersonality := context.userContext.spendingPersonality
  let message := asciiLower context.userMessage
  if strIncludes message "save" || strIncludes message "saving" then
    "Hi " ++ name ++ "! I can see you're interested in saving money. As a "
      ++ spendingPersonality ++ ", here are some personalized tips:\n\n"
      ++ "[tip] **Quick Savings Tips:**\n"
      ++ "[-] Set up automatic transfers to savings account\n"
      ++ "[-] Track your daily spending with our app\n"
      ++ "[-] Look for areas where you can reduce expenses\n\n"
      ++ "Would you like me to help you set up a savings goal or analyze your spending patterns?"
  else if strIncludes message "spend" || strIncludes message "expense" then
    "Hey " ++ name ++ "! Let me analyze your spending patterns as a "
      ++ spendingPersonality ++ ":\n\n"
      ++ "[chart] **Your Spending Overview:**\n"
      ++ "I can help you understand your spending patterns and identify areas for improvement.\n\n"
      ++ "[target] **Insights:**\n"
      ++ (if spendingPersonality == "Heavy Spender" then
            "I notice you have several high-value transactions. Consider setting daily spending limits."
          else if spendingPersonality == "Max Saver" then
            "Great job maintaining low spending! You're on track with your savings goals."
          else "Your spending is well-balanced. Keep up the good work!")
      ++ "\n\nWould you like me to help you create a budget or identify areas for improvement?"
  else
    "Hi " ++ name ++ "! I'm your Stash AI financial coach. I can help you with:\n\n"
      ++ "[chat] **What I can do:**\n"
      ++ "[-] Analyze your spending patterns\n"
      ++ "[-] Provide personalized savings tips\n"
      ++ "[-] Help you set and track financial goals\n"
      ++ "[-] Answer questions about budgeting\n"
      ++ "[-] Give investment advice\n\n"
      ++ "I can see you're a " ++ spendingPersonality ++ ". How can I help you today?\n\n"
      ++ "Just ask me about saving money, budgeting, spending analysis, or any financial topic!"

/-- The canned reply of `generateResponseFromPrompt`. -/
def promptFallback : String :=
  "I'm here to help with your financial questions! What would you like to know about your spending or savings?"

/-- `GPT4Service.generateResponse`: no key → fallback without calling out;
otherwise the call's outcome, with fallback on a thrown error, missing or
empty content (JS `content || fallback`). -/
def generateResponse (apiKey : String) (llm : Except Unit (Option String))
    (context : ChatContext) : String :=
  if apiKey == "" then getFallbackResponse context
  else
    match llm with
    | Except.error _ => getFallbackResponse context
    | Except.ok none => getFallbackResponse context
    | Except.ok (some content) =>
      if content == "" then getFallbackResponse context else content

/-- `GPT4Service.generateResponseFromPrompt`. -/
def generateResponseFromPrompt (apiKey : String)
    (llm : Except Unit (Option String)) (_prompt : String) : String :=
  if apiKey == "" then promptFallback
  else
    match llm with
    | Except.error _ => promptFallback
    | Except.ok none => promptFallback
    | Except.ok (some content) =>
      if content == "" then promptFallback else content

/-- C9. With no API key configured both entry points return the templated
fallback whatever the external call would have produced (the result does
not depend on `llm`, i.e. no external call is consulted); and with a key,
a thrown error or an empty completion also yields the same fallback
instead of propagating the error. -/
theorem c9_gpt4_fallback (apiKey : String) (llm : Except Unit (Option String))
    (context : ChatContext) (prompt : String) :
    generateResponse "" llm context = getFallbackResponse context
  ∧ generateResponse apiKey (Except.error ()) context
      = getFallbackResponse context
  ∧ generateResponse apiKey (Except.ok none) context
      = getFallbackResponse context
  ∧ generateResponseFromPrompt "" llm prompt = promptFallback
  ∧ generateResponseFromPrompt apiKey (Except.error ()) prompt = promptFallback
  ∧ generateResponseFromPrompt apiKey (Except.ok none) prompt = promptFallback := by
  refine ⟨rfl, ?_, ?_, rfl, ?_, ?_⟩
  · unfold generateResponse
    by_cases h : apiKey == ""
    · rw [if_pos h]
    · rw [if_neg h]
  · unfold generateResponse
    by_cases h : apiKey == ""
    · rw [if_pos h]
    · rw [if_neg h]
  · unfold generateResponseFromPrompt
    by_cases h : apiKey == ""
    · rw [if_pos h]
    · rw [if_neg h]
  · unfold generateResponseFromPrompt
    by_cases h : apiKey == ""
    · rw [if_pos h]
    · rw [if_neg h]

/-! ## Salary route, `PUT /:userId` (routes/financial.ts salary router) -/

structure SalaryRecord where
  userId : String
  salary : ℚ
deriving DecidableEq, Repr

/-- The `salary` field of the request body: absent, present but not a
number, or a number (`ℚ`; `!salary` on a number is true exactly at 0
here — JS `NaN` has no counterpart in the exact model). -/
inductive SalaryBody
  | missing
  | nonNumber
  | num (salary : ℚ)
deriving DecidableEq

structure RouteResult where
  status : Nat
  success : Bool
  returnedSalary : Option ℚ
  db : List SalaryRecord
deriving DecidableEq, Repr

/-- The salary router's `PUT /:userId` handler over an explicit salary
collection: validate `!salary || typeof salary !== 'number' ||
salary < 100000` → 400 and no write; otherwise save a new record and
respond success. -/
def putSalaryRoute (userId : String) (body : SalaryBody)
    (db : List SalaryRecord) : RouteResult :=
  match body with
  | SalaryBody.missing => ⟨400, false, none, db⟩
  | SalaryBody.nonNumber => ⟨400, false, none, db⟩
  | SalaryBody.num salary =>
    if salary = 0 then ⟨400, false, none, db⟩
    else if salary < 100000 then ⟨400, false, none, db⟩
    else ⟨200, true, some salary, db ++ [⟨userId, salary⟩]⟩

/-- C10. If the salary in the body is missing, not a number, or below
100000, the route responds 400 and the stored salary history is
unchanged; otherwise a new record with that value is appended and returned
with success true. -/
theorem c10_put_salary (userId : String) (body : SalaryBody)
    (db : List SalaryRecord) :
    ((body = SalaryBody.missing ∨ body = SalaryBody.nonNumber ∨
        ∃ q, body = SalaryBody.num q ∧ q < 100000) →
      (putSalaryRoute userId body db).status = 400
      ∧ (putSalaryRoute userId body db).db = db)
  ∧ (∀ q : ℚ, body = SalaryBody.num q → 100000 ≤ q →
      putSalaryRoute userId body db
        = ⟨200, true, some q, db ++ [⟨userId, q⟩]⟩) := by
  constructor
  · intro h
    rcases h with rfl | rfl | ⟨q, rfl, hq⟩
    · exact ⟨rfl, rfl⟩
    · exact ⟨rfl, rfl⟩
    · simp only [putSalaryRoute]
      by_cases h0 : q = 0
      · rw [if_pos h0]
        exact ⟨rfl, rfl⟩
      · rw [if_neg h0, if_pos hq]
        exact ⟨rfl, rfl⟩
  · intro q hbody hq
    subst hbody
    have h0 : ¬ q = 0 := by
      intro h
      rw [h] at hq
      norm_num at hq
    simp only [putSalaryRoute]
    rw [if_neg h0, if_neg (not_lt.mpr hq)]

/-- C10, witness: a 50000 salary is rejected with 400 leaving the store
unchanged; a 150000 salary is appended and echoed with success. -/
theorem c10_witness :
    (putSalaryRoute "user1" (SalaryBody.num 50000) []).status = 400
  ∧ (putSalaryRoute "user1" (SalaryBody.num 50000) []).db = []
  ∧ putSalaryRoute "user1" (SalaryBody.num 150000) []
      = ⟨200, true, some 150000, [⟨"user1", 150000⟩]⟩ := by
  refine ⟨?_, ?_, ?_⟩
  · exact ((c10_put_salary "user1" (SalaryBody.num 50000) []).1
      (Or.inr (Or.inr ⟨50000, rfl, by norm_num⟩))).1
  · exact ((c10_put_salary "user1" (SalaryBody.num 50000) []).1
      (Or.inr (Or.inr ⟨50000, rfl, by norm_num⟩))).2
  · exact (c10_put_salary "user1" (SalaryBody.num 150000) []).2 150000 rfl
      (by norm_num)

/-! ## TransactionService (financialProfileService.ts)

Calendar dates (`YYYY-MM-DD` strings) are modelled as day numbers: the
source compares them as strings and as `Date` values, both of which agree
with the numeric order of day numbers, and advances them by
`setDate(getDate() + 1)`, which is day-number successor. `Math.random()`
is modelled as a stream `rng : Nat → ℚ` of draws in `[0, 1)`, consumed in
the source's call order. -/

structure PersonaTransaction where
  id : String
  /-- day number of the `YYYY-MM-DD` date -/
  date : Nat
  merchant : String
  amount : ℚ
  category : String
  paymentMethod : String
deriving DecidableEq, Repr

def heavyMerchants : List String :=
  ["Luxury Restaurant", "Shopping Mall", "Cinema Hall", "Gaming Zone",
   "Uber", "Netflix"]

def mediumMerchants : List String :=
  ["Local Kirana", "Restaurant", "Shopping Mall", "Metro Card",
   "Savings Account Transfer"]

def maxMerchants : List String :=
  ["Local Kirana", "Metro Card", "Savings Account Transfer",
   "Electricity Bill", "Local Market"]

def heavyCategories : List String :=
  ["dining", "entertainment", "shopping", "transport"]

def mediumCategories : List String :=
  ["groceries", "food", "shopping", "transport", "savings"]

def maxCategories : List String :=
  ["groceries", "transport", "savings", "utilities"]

def paymentMethodsList : List String := ["Card", "UPI", "NetBanking", "Cash"]

/-- `merchants[personaType] || merchants.medium`. -/
def merchantsFor (personaType : String) : List String :=
  if personaType == "heavy" then heavyMerchants
  else if personaType == "medium" then mediumMerchants
  else if personaType == "max" then maxMerchants
  else mediumMerchants

/-- `categories[personaType] || categories.medium`. -/
def categoriesFor (personaType : String) : List String :=
  if personaType == "heavy" then heavyCategories
  else if personaType == "medium" then mediumCategories
  else if personaType == "max" then maxCategories
  else mediumCategories

/-- `Math.floor` on a rational. -/
def jsFloor (q : ℚ) : ℤ := Int.floor q

/-- `arr[Math.floor(r * arr.length)]` (out-of-range JS access has no
counterpart; with draws in `[0,1)` the index is always in range). -/
def pick (l : List String) (r : ℚ) : String :=
  l.getD (jsFloor (r * l.length)).toNat ""

/-- The persona-dependent amount: `heavy` 500 + ⌊r·2000⌋, `medium`
200 + ⌊r·1000⌋, otherwise 100 + ⌊r·500⌋. -/
def genAmount (personaType : String) (r : ℚ) : ℚ :=
  if personaType == "heavy" then ((jsFloor (r * 2000) + 500 : ℤ) : ℚ)
  else if personaType == "medium" then ((jsFloor (r * 1000) + 200 : ℤ) : ℚ)
  else ((jsFloor (r * 500) + 100 : ℤ) : ℚ)

/-- `TransactionService.generateRandomTransaction`, drawing the merchant,
category, payment method and amount from `rng` at positions `k..k+3` (the
source's four `Math.random()` calls, in order). -/
def generateRandomTransaction (personaType : String) (d : Nat) (index : Nat)
    (rng : Nat → ℚ) (k : Nat) : PersonaTransaction :=
  { id := "persona_" ++ personaType ++ "_" ++ toString d ++ "_"
      ++ toString index
    date := d
    merchant := pick (merchantsFor personaType) (rng k)
    amount := genAmount personaType (rng (k + 3))
    category := pick (categoriesFor personaType) (rng (k + 1))
    paymentMethod := pick paymentMethodsList (rng (k + 2)) }

/-- The `numTransactions` inner loop for one missing day (indices 1..n,
each transaction consuming four draws). -/
def genForDay (personaType : String) (d : Nat) (n : Nat) (rng : Nat → ℚ)
    (k : Nat) : List PersonaTransaction :=
  (List.range n).map
    (fun i => generateRandomTransaction personaType d (i + 1) rng (k + 4 * i))

/-- The day loop of `generateTransactionsForMissingDates`: per day draw
`numTransactions = Math.floor(Math.random() * 3) + 1`, then generate that
many transactions. -/
def genMissingAux (personaType : String) (rng : Nat → ℚ) :
    List Nat → Nat → List PersonaTransaction
  | [], _ => []
  | d :: rest, k =>
    let n := (jsFloor (rng k * 3)).toNat + 1
    genForDay personaType d n rng (k + 1)
      ++ genMissingAux personaType rng rest (k + 1 + 4 * n)

/-- `TransactionService.generateTransactionsForMissingDates`: days strictly
after `startD` up to `endD`, in ascending order (the source's date loop
with the `dateStr <= startDate` skip). -/
def generateTransactionsForMissingDates (personaType : String)
    (startD endD : Nat) (rng : Nat → ℚ) : List PersonaTransaction :=
  genMissingAux personaType rng (List.range' (startD + 1) (endD - startD)) 0

/-- `txDate >= startDate && txDate <= endDate` for the current month. -/
def inWindow (monthStart today : Nat) (tx : PersonaTransaction) : Bool :=
  monthStart ≤ tx.date && tx.date ≤ today

/-- The filtered persona rows sorted newest-first
(`.filter(...).sort((a, b) => dateB - dateA)`). -/
def validSorted (personaData : List PersonaTransaction)
    (monthStart today : Nat) : List PersonaTransaction :=
  sortDesc (fun tx => tx.date) (personaData.filter (inWindow monthStart today))

/-- `validTransactions.length > 0 ? validTransactions[0].date : startDate`. -/
def latestDateInData (personaData : List PersonaTransaction)
    (monthStart today : Nat) : Nat :=
  match validSorted personaData monthStart today with
  | [] => monthStart
  | tx :: _ => tx.date

/-- `TransactionService.getLatestTransactions`: month-window filter, sort
newest-first, prepend synthesized rows when today is past the latest date
in the data, truncate to `limit`. `monthStart`/`today` are the day numbers
of `YYYY-MM-01` and the current date. -/
def getLatestTransactions (personaType : String)
    (personaData : List PersonaTransaction) (monthStart today : Nat)
    (rng : Nat → ℚ) (limit : Nat) : List PersonaTransaction :=
  (if latestDateInData personaData monthStart today < today then
      generateTransactionsForMissingDates personaType
        (latestDateInData personaData monthStart today) today rng
        ++ validSorted personaData monthStart today
    else validSorted personaData monthStart today).take limit

/-- The lower end of the synthesized amount range per persona. -/
def amountLowFor (p : String) : ℚ :=
  if p == "heavy" then 500 else if p == "medium" then 200 else 100

/-- The upper end of the synthesized amount range per persona (the source
comments: heavy 500-2500, medium 200-1200, max 100-600). -/
def amountHighFor (p : String) : ℚ :=
  if p == "heavy" then 2500 else if p == "medium" then 1200 else 600

theorem floor_mul_bounds (r : ℚ) (h0 : 0 ≤ r) (h1 : r < 1) (m : ℚ)
    (hm : 0 < m) : 0 ≤ jsFloor (r * m) ∧ (jsFloor (r * m) : ℚ) < m := by
  refine ⟨Int.floor_nonneg.mpr (mul_nonneg h0 hm.le), ?_⟩
  have hlt : r * m < m := by
    calc r * m < 1 * m := mul_lt_mul_of_pos_right h1 hm
    _ = m := one_mul _
  calc (jsFloor (r * m) : ℚ) ≤ r * m := Int.floor_le _
  _ < m := hlt

theorem pick_mem (l : List String) (r : ℚ) (hl : l ≠ []) (h0 : 0 ≤ r)
    (h1 : r < 1) : pick l r ∈ l := by
  have hn : 0 < l.length := List.length_pos.mpr hl
  have hnQ : (0 : ℚ) < l.length := by exact_mod_cast hn
  have hb := floor_mul_bounds r h0 h1 l.length hnQ
  have hflt : jsFloor (r * l.length) < (l.length : ℤ) := by exact_mod_cast hb.2
  have hidx : (jsFloor (r * l.length)).toNat < l.length := by omega
  unfold pick
  rw [List.getD_eq_getElem?_getD, List.getElem?_eq_getElem hidx]
  exact List.getElem_mem hidx

theorem merchantsFor_ne_nil (p : String) : merchantsFor p ≠ [] := by
  unfold merchantsFor
  split_ifs <;> simp [heavyMerchants, mediumMerchants, maxMerchants]

theorem categoriesFor_ne_nil (p : String) : categoriesFor p ≠ [] := by
  unfold categoriesFor
  split_ifs <;> simp [heavyCategories, mediumCategories, maxCategories]

theorem genAmount_bounds (p : String) (r : ℚ) (h0 : 0 ≤ r) (h1 : r < 1) :
    amountLowFor p ≤ genAmount p r ∧ genAmount p r ≤ amountHighFor p := by
  unfold genAmount amountLowFor amountHighFor
  by_cases hp : (p == "heavy") = true
  · rw [if_pos hp, if_pos hp, if_pos hp]
    have hb := floor_mul_bounds r h0 h1 2000 (by norm_num)
    have hz : (0 : ℤ) ≤ jsFloor (r * 2000) := hb.1
    have hlt : jsFloor (r * 2000) < 2000 := by exact_mod_cast hb.2
    constructor
    · exact_mod_cast (by omega : (500 : ℤ) ≤ jsFloor (r * 2000) + 500)
    · exact_mod_cast (by omega : jsFloor (r * 2000) + 500 ≤ (2500 : ℤ))
  · rw [if_neg hp, if_neg hp, if_neg hp]
    by_cases hm : (p == "medium") = true
    · rw [if_pos hm, if_pos hm, if_pos hm]
      have hb := floor_mul_bounds r h0 h1 1000 (by norm_num)
      have hz : (0 : ℤ) ≤ jsFloor (r * 1000) := hb.1
      have hlt : jsFloor (r * 1000) < 1000 := by exact_mod_cast hb.2
      constructor
      · exact_mod_cast (by omega : (200 : ℤ) ≤ jsFloor (r * 1000) + 200)
      · exact_mod_cast (by omega : jsFloor (r * 1000) + 200 ≤ (1200 : ℤ))
    · rw [if_neg hm, if_neg hm, if_neg hm]
      have hb := floor_mul_bounds r h0 h1 500 (by norm_num)
      have hz : (0 : ℤ) ≤ jsFloor (r * 500) := hb.1
      have hlt : jsFloor (r * 500) < 500 := by exact_mod_cast hb.2
      constructor
      · exact_mod_cast (by omega : (100 : ℤ) ≤ jsFloor (r * 500) + 100)
      · exact_mod_cast (by omega : jsFloor (r * 500) + 100 ≤ (600 : ℤ))

theorem generateRandomTransaction_props (p : String) (d i k : Nat)
    (rng : Nat → ℚ) (hrng : ∀ j, 0 ≤ rng j ∧ rng j < 1) :
    (generateRandomTransaction p d i rng k).merchant ∈ merchantsFor p
  ∧ (generateRandomTransaction p d i rng k).category ∈ categoriesFor p
  ∧ (generateRandomTransaction p d i rng k).paymentMethod ∈ paymentMethodsList
  ∧ amountLowFor p ≤ (generateRandomTransaction p d i rng k).amount
  ∧ (generateRandomTransaction p d i rng k).amount ≤ amountHighFor p :=
  ⟨pick_mem _ _ (merchantsFor_ne_nil p) (hrng k).1 (hrng k).2,
   pick_mem _ _ (categoriesFor_ne_nil p) (hrng (k + 1)).1 (hrng (k + 1)).2,
   pick_mem _ _ (by simp [paymentMethodsList]) (hrng (k + 2)).1 (hrng (k + 2)).2,
   (genAmount_bounds p (rng (k + 3)) (hrng (k + 3)).1 (hrng (k + 3)).2).1,
   (genAmount_bounds p (rng (k + 3)) (hrng (k + 3)).1 (hrng (k + 3)).2).2⟩

theorem genForDay_mem {p : String} {d n k : Nat} {rng : Nat → ℚ}
    {tx : PersonaTransaction} (h : tx ∈ genForDay p d n rng k) :
    ∃ i j, tx = generateRandomTransaction p d i rng j := by
  unfold genForDay at h
  rcases List.mem_map.mp h with ⟨i, _, rfl⟩
  exact ⟨i + 1, k + 4 * i, rfl⟩

theorem genForDay_date {p : String} {d n k : Nat} {rng : Nat → ℚ}
    {tx : PersonaTransaction} (h : tx ∈ genForDay p d n rng k) :
    tx.date = d := by
  rcases genForDay_mem h with ⟨i, j, rfl⟩
  rfl

theorem genForDay_length (p : String) (d n k : Nat) (rng : Nat → ℚ) :
    (genForDay p d n rng k).length = n := by
  unfold genForDay
  rw [List.length_map, List.length_range]

theorem genForDay_map_date (p : String) (d n k : Nat) (rng : Nat → ℚ) :
    (genForDay p d n rng k).map (fun tx => tx.date) = List.replicate n d := by
  unfold genForDay
  rw [List.map_map]
  have hc : ((fun tx : PersonaTransaction => tx.date) ∘
      fun i => generateRandomTransaction p d (i + 1) rng (k + 4 * i))
      = fun _ => d := rfl
  rw [hc, List.map_const', List.length_range]

theorem genMissingAux_date_mem (p : String) (rng : Nat → ℚ) :
    ∀ (days : List Nat) (k : Nat), ∀ tx ∈ genMissingAux p rng days k,
      tx.date ∈ days := by
  intro days
  induction days with
  | nil => intro k tx h; simp [genMissingAux] at h
  | cons d rest ih =>
    intro k tx h
    simp only [genMissingAux] at h
    rcases List.mem_append.mp h with h | h
    · exact List.mem_cons.mpr (Or.inl (genForDay_date h))
    · exact List.mem_cons_of_mem _ (ih _ tx h)

theorem genMissingAux_props (p : String) (rng : Nat → ℚ)
    (hrng : ∀ j, 0 ≤ rng j ∧ rng j < 1) :
    ∀ (days : List Nat) (k : Nat), ∀ tx ∈ genMissingAux p rng days k,
      tx.merchant ∈ merchantsFor p ∧ tx.category ∈ categoriesFor p
      ∧ tx.paymentMethod ∈ paymentMethodsList
      ∧ amountLowFor p ≤ tx.amount ∧ tx.amount ≤ amountHighFor p := by
  intro days
  induction days with
  | nil => intro k tx h; simp [genMissingAux] at h
  | cons d rest ih =>
    intro k tx h
    simp only [genMissingAux] at h
    rcases List.mem_append.mp h with h | h
    · rcases genForDay_mem h with ⟨i, j, rfl⟩
      exact generateRandomTransaction_props p d i j rng hrng
    · exact ih _ tx h

theorem pairwise_le_replicate (n d : Nat) :
    (List.replicate n d).Pairwise (· ≤ ·) := by
  induction n with
  | zero => simp
  | succ m ih =>
    rw [List.replicate_succ]
    refine List.pairwise_cons.mpr ⟨?_, ih⟩
    intro b hb
    rw [List.eq_of_mem_replicate hb]

theorem genMissingAux_sorted (p : String) (rng : Nat → ℚ) :
    ∀ (days : List Nat) (k : Nat), days.Pairwise (· < ·) →
      ((genMissingAux p rng days k).map (fun tx => tx.date)).Pairwise
        (· ≤ ·) := by
  intro days
  induction days with
  | nil => intro k _; simp [genMissingAux]
  | cons d rest ih =>
    intro k hdays
    rcases List.pairwise_cons.mp hdays with ⟨hd, hrest⟩
    simp only [genMissingAux, List.map_append]
    refine List.pairwise_append.mpr ⟨?_, ih _ hrest, ?_⟩
    · rw [genForDay_map_date]
      exact pairwise_le_replicate _ _
    · intro a ha b hb
      rw [genForDay_map_date] at ha
      rcases List.mem_map.mp hb with ⟨tx, htx, rfl⟩
      have hbd : tx.date ∈ rest := genMissingAux_date_mem p rng rest _ tx htx
      rw [List.eq_of_mem_replicate ha]
      exact le_of_lt (hd _ hbd)

theorem genMissingAux_count (p : String) (rng : Nat → ℚ)
    (hrng : ∀ j, 0 ≤ rng j ∧ rng j < 1) :
    ∀ (days : List Nat) (k : Nat) (d : Nat), days.Nodup → d ∈ days →
      1 ≤ ((genMissingAux p rng days k).filter
            (fun tx => tx.date == d)).length
      ∧ ((genMissingAux p rng days k).filter
            (fun tx => tx.date == d)).length ≤ 3 := by
  intro days
  induction days with
  | nil => intro k d _ hd; simp at hd
  | cons d0 rest ih =>
    intro k d hnodup hd
    rcases List.nodup_cons.mp hnodup with ⟨hd0rest, hnrest⟩
    simp only [genMissingAux, List.filter_append, List.length_append]
    rcases List.mem_cons.mp hd with rfl | hdrest
    · have hblock : (genForDay p d ((jsFloor (rng k * 3)).toNat + 1) rng
          (k + 1)).filter (fun tx => tx.date == d)
          = genForDay p d ((jsFloor (rng k * 3)).toNat + 1) rng (k + 1) := by
        apply List.filter_eq_self.mpr
        intro tx htx
        simp [genForDay_date htx]
      have hrest0 : ((genMissingAux p rng rest
          (k + 1 + 4 * ((jsFloor (rng k * 3)).toNat + 1))).filter
          (fun tx => tx.date == d)).length = 0 := by
        rw [List.length_eq_zero]
        apply List.filter_eq_nil_iff.mpr
        intro tx htx
        have hmem := genMissingAux_date_mem p rng rest _ tx htx
        simp only [beq_iff_eq]
        intro hcontra
        rw [hcontra] at hmem
        exact hd0rest hmem
      rw [hblock, hrest0, genForDay_length]
      have hb := floor_mul_bounds (rng k) (hrng k).1 (hrng k).2 3 (by norm_num)
      have hlt3 : jsFloor (rng k * 3) < 3 := by exact_mod_cast hb.2
      have hz : (0 : ℤ) ≤ jsFloor (rng k * 3) := hb.1
      omega
    · have hblock0 : ((genForDay p d0 ((jsFloor (rng k * 3)).toNat + 1) rng
          (k + 1)).filter (fun tx => tx.date == d)).length = 0 := by
        rw [List.length_eq_zero]
        apply List.filter_eq_nil_iff.mpr
        intro tx htx
        have hdd : tx.date = d0 := genForDay_date htx
        simp only [hdd, beq_iff_eq]
        intro hcontra
        rw [hcontra] at hd0rest
        exact hd0rest hdrest
      rw [hblock0]
      have := ih (k + 1 + 4 * ((jsFloor (rng k * 3)).toNat + 1)) d hnrest hdrest
      omega

theorem latest_ge_monthStart (personaData : List PersonaTransaction)
    (monthStart today : Nat) :
    monthStart ≤ latestDateInData personaData monthStart today := by
  unfold latestDateInData
  cases hv : validSorted personaData monthStart today with
  | nil => exact le_refl _
  | cons tx rest =>
    have htx : tx ∈ validSorted personaData monthStart today := by
      rw [hv]; exact List.mem_cons_self _ _
    have hmem : tx ∈ personaData.filter (inWindow monthStart today) :=
      (mem_sortDesc _ _ _).mp htx
    have h2 := (List.mem_filter.mp hmem).2
    unfold inWindow at h2
    simp only [Bool.and_eq_true, decide_eq_true_eq] at h2
    exact h2.1

/-- C8, amended. `getLatestTransactions` returns at most `limit`
transactions, all dated between the first day of the current month and
today; the persona-data portion is sorted newest-first; and whenever
today is strictly later than the latest date present in the loaded
persona data for that month, it prepends synthesized pseudo-random
transactions — 1 to 3 per missing day, in ascending day order (so the
combined list is not newest-first when more than one day is missing),
with persona-specific merchants, categories and amount ranges
(heavy 500-2500, medium 200-1200, max 100-600) — before truncating. -/
theorem c8_getLatestTransactions_amended (personaType : String)
    (personaData : List PersonaTransaction) (monthStart today : Nat)
    (rng : Nat → ℚ) (limit : Nat)
    (hrng : ∀ j, 0 ≤ rng j ∧ rng j < 1) :
    getLatestTransactions personaType personaData monthStart today rng limit
      = ((if latestDateInData personaData monthStart today < today then
            generateTransactionsForMissingDates personaType
              (latestDateInData personaData monthStart today) today rng
          else [])
          ++ validSorted personaData monthStart today).take limit
  ∧ (getLatestTransactions personaType personaData monthStart today rng
      limit).length ≤ limit
  ∧ (∀ tx ∈ getLatestTransactions personaType personaData monthStart today
        rng limit, monthStart ≤ tx.date ∧ tx.date ≤ today)
  ∧ (validSorted personaData monthStart today).Pairwise
      (fun a b => b.date ≤ a.date)
  ∧ ((generateTransactionsForMissingDates personaType
        (latestDateInData personaData monthStart today) today rng).map
        (fun tx => tx.date)).Pairwise (· ≤ ·)
  ∧ (∀ d : Nat, latestDateInData personaData monthStart today < d →
        d ≤ today →
        1 ≤ ((generateTransactionsForMissingDates personaType
              (latestDateInData personaData monthStart today) today
              rng).filter (fun tx => tx.date == d)).length
        ∧ ((generateTransactionsForMissingDates personaType
              (latestDateInData personaData monthStart today) today
              rng).filter (fun tx => tx.date == d)).length ≤ 3)
  ∧ (∀ tx ∈ generateTransactionsForMissingDates personaType
        (latestDateInData personaData monthStart today) today rng,
        tx.merchant ∈ merchantsFor personaType
        ∧ tx.category ∈ categoriesFor personaType
        ∧ tx.paymentMethod ∈ paymentMethodsList
        ∧ amountLowFor personaType ≤ tx.amount
        ∧ tx.amount ≤ amountHighFor personaType) := by
  set latest := latestDateInData personaData monthStart today with hlatest
  have hdecomp : getLatestTransactions personaType personaData monthStart
      today rng limit
      = ((if latest < today then
            generateTransactionsForMissingDates personaType latest today rng
          else []) ++ validSorted personaData monthStart today).take limit := by
    unfold getLatestTransactions
    by_cases hc : latest < today
    · rw [if_pos hc, if_pos hc]
    · rw [if_neg hc, if_neg hc, List.nil_append]
  have hgendates : ∀ tx ∈ generateTransactionsForMissingDates personaType
      latest today rng, latest < tx.date ∧ tx.date ≤ today := by
    intro tx htx
    unfold generateTransactionsForMissingDates at htx
    have hmem := genMissingAux_date_mem personaType rng _ _ tx htx
    rw [List.mem_range'_1] at hmem
    omega
  refine ⟨hdecomp, ?_, ?_, pairwise_sortDesc _ _, ?_, ?_, ?_⟩
  · rw [hdecomp]
    exact List.length_take_le _ _
  · intro tx htx
    rw [hdecomp] at htx
    have htx2 := (List.take_sublist _ _).mem htx
    rcases List.mem_append.mp htx2 with h | h
    · by_cases hc : latest < today
      · rw [if_pos hc] at h
        have hd := hgendates tx h
        have hms := latest_ge_monthStart personaData monthStart today
        rw [← hlatest] at hms
        omega
      · rw [if_neg hc] at h
        simp at h
    · have hmem : tx ∈ personaData.filter (inWindow monthStart today) :=
        (mem_sortDesc _ _ _).mp h
      have h2 := (List.mem_filter.mp hmem).2
      unfold inWindow at h2
      simp only [Bool.and_eq_true, decide_eq_true_eq] at h2
      exact h2
  · unfold generateTransactionsForMissingDates
    exact genMissingAux_sorted personaType rng _ _
      (List.pairwise_lt_range' _ _)
  · intro d hd1 hd2
    unfold generateTransactionsForMissingDates
    refine genMissingAux_count personaType rng hrng _ _ d
      (List.nodup_range' _ _) ?_
    rw [List.mem_range'_1]
    omega
  · intro tx htx
    unfold generateTransactionsForMissingDates at htx
    exact genMissingAux_props personaType rng hrng _ _ tx htx

/-- C8, witness for the amended theorem: a concrete instance with a valid
random stream. -/
theorem c8_witness :
    (getLatestTransactions "heavy" [] 1 1 (fun _ => 1 / 2) 5).length ≤ 5 :=
  (c8_getLatestTransactions_amended "heavy" [] 1 1 (fun _ => 1 / 2) 5
    (fun _ => ⟨by norm_num, by norm_num⟩)).2.1

/-- C8, counterexample. The claim says the returned list is sorted
newest-first; with one persona row on day 1, today = day 3 and a constant
random stream, the two synthesized rows come out in ascending day order
(day 2 before day 3) ahead of the day-1 row, so the result is not sorted
newest-first. -/
theorem c8_counterexample_not_newest_first :
    ¬ (getLatestTransactions "heavy"
        [⟨"p1", 1, "Shopping Mall", 1200, "shopping", "Card"⟩]
        1 3 (fun _ => 0) 10).Pairwise (fun a b => b.date ≤ a.date) := by
  intro hpair
  have hn1 : (jsFloor (0 : ℚ)).toNat = 0 := by norm_num [jsFloor]
  have hgen : genMissingAux "heavy" (fun _ => 0) [2, 3] 0
      = [generateRandomTransaction "heavy" 2 1 (fun _ => 0) 1,
         generateRandomTransaction "heavy" 3 1 (fun _ => 0) 6] := by
    simp [genMissingAux, genForDay, hn1, List.range_succ]
  have hmain : getLatestTransactions "heavy"
      [⟨"p1", 1, "Shopping Mall", 1200, "shopping", "Card"⟩]
      1 3 (fun _ => 0) 10
      = [generateRandomTransaction "heavy" 2 1 (fun _ => 0) 1,
         generateRandomTransaction "heavy" 3 1 (fun _ => 0) 6,
         ⟨"p1", 1, "Shopping Mall", 1200, "shopping", "Card"⟩] := by
    unfold getLatestTransactions generateTransactionsForMissingDates
    have hlat : latestDateInData
        [⟨"p1", 1, "Shopping Mall", 1200, "shopping", "Card"⟩] 1 3 = 1 := rfl
    have hval : validSorted
        [⟨"p1", 1, "Shopping Mall", 1200, "shopping", "Card"⟩] 1 3
        = [⟨"p1", 1, "Shopping Mall", 1200, "shopping", "Card"⟩] := rfl
    rw [hlat, hval, if_pos (by norm_num)]
    have hrange : List.range' (1 + 1) (3 - 1) = [2, 3] := rfl
    rw [hrange, hgen]
    rfl
  rw [hmain] at hpair
  have h23 := (List.pairwise_cons.mp hpair).1
    (generateRandomTransaction "heavy" 3 1 (fun _ => 0) 6)
    (List.mem_cons_self _ _)
  have hle : (3 : Nat) ≤ 2 := h23
  omega

end Stash
